import Mathlib

/-!
Shallow embedding of `src/activity.c` (haproxy activity measurement):
the profiling-mode word and its mutations, the per-thread stolen-time
accounting, and the `show profiling` report pipeline
(snapshot, sort, format, hand-off).
-/

/-- Modelled from the spec: the numeric values of the profiling-mode bit
constants (`HA_PROF_TASKS_OFF`, `HA_PROF_TASKS_AOFF`, `HA_PROF_TASKS_AON`,
`HA_PROF_TASKS_ON`, `HA_PROF_TASKS_MASK`) are declared in the header
`haproxy/activity-t.h`, which is not among the sources at hand.  Per the
spec the mode is a small enumerated value packed into a bitfield alongside
other flags in one shared word, with four distinct states `Off`, `AutoOff`,
`AutoOn`, `On`, ordered so that `AutoOn` ranks above `AutoOff` and neither
`On` nor `Off` ranks at or above `AutoOn`. -/
def HA_PROF_TASKS_MASK : Nat := 7

/-- Modelled from the spec: mode-bit value of state `Off` (see
`HA_PROF_TASKS_MASK`). -/
def HA_PROF_TASKS_OFF : Nat := 0

/-- Modelled from the spec: mode-bit value of state `On`; it does not rank
at or above `AutoOn` (see `HA_PROF_TASKS_MASK`). -/
def HA_PROF_TASKS_ON : Nat := 1

/-- Modelled from the spec: mode-bit value of state `AutoOff` (see
`HA_PROF_TASKS_MASK`). -/
def HA_PROF_TASKS_AOFF : Nat := 2

/-- Modelled from the spec: mode-bit value of state `AutoOn`, ranking above
`AutoOff`, `On` and `Off` (see `HA_PROF_TASKS_MASK`). -/
def HA_PROF_TASKS_AON : Nat := 4

/-- The 32-bit complement `~HA_PROF_TASKS_MASK` used on the `unsigned int`
word `profiling` by every mode mutation in `activity.c`. -/
def NOT_TASKS_MASK : Nat := 0xFFFFFFFF ^^^ HA_PROF_TASKS_MASK

/-- `(w & ~HA_PROF_TASKS_MASK) | v`: the new-word computation shared by every
mode mutation in `activity.c` (lines 52, 54, 56, 75, 84, 86, 91). -/
def set_tasks_bits (w v : Nat) : Nat := (w &&& NOT_TASKS_MASK) ||| v

/-- Initial value of the shared word: `unsigned int profiling =
HA_PROF_TASKS_AOFF;` (line 24). -/
def profiling_init : Nat := HA_PROF_TASKS_AOFF

/-- The three transition requests of the mode state machine. -/
inductive ProfReq where
  | on
  | auto
  | off
deriving DecidableEq

/-- The pure new-word computation performed by `cli_parse_set_profiling`
for each request (lines 73-93): `on` and `off` force the mode bits, `auto`
keeps tier `AutoOn` when the current mode bits rank at or above
`HA_PROF_TASKS_AON` and otherwise selects `AutoOff`. -/
def cli_transition : ProfReq → Nat → Nat
  | ProfReq.on, w => set_tasks_bits w HA_PROF_TASKS_ON
  | ProfReq.auto, w =>
      if HA_PROF_TASKS_AON ≤ w &&& HA_PROF_TASKS_MASK then
        set_tasks_bits w HA_PROF_TASKS_AON
      else
        set_tasks_bits w HA_PROF_TASKS_AOFF
  | ProfReq.off, w => set_tasks_bits w HA_PROF_TASKS_OFF

/-- A `_HA_ATOMIC_CAS` retry loop that recomputes its new value from the
word value last read (lines 75, 82-87, 91): `interf` lists the interfering
writes landing between a read and the corresponding CAS attempt, each of
which makes that attempt fail and the loop re-read the word; once no
interference remains the CAS succeeds and installs `f` of the value read. -/
def cas_loop (f : Nat → Nat) : Nat → List (Nat → Nat) → Nat
  | w, [] => f w
  | w, g :: gs => cas_loop f (g w) gs

/-- The non-atomic read-modify-write `profiling = (profiling & ~MASK) | V`
of `cfg_parse_prof_tasks` (lines 51-56): the word is read and `f` of it is
stored back; an interfering write `g` landing between the read and the
store is overwritten, so the stored result does not depend on `g`. -/
def plain_rmw_store (f g : Nat → Nat) (w : Nat) : Nat := f w

/-- `cfg_parse_prof_tasks` (lines 44-62) on arguments `args[0] = arg0`
(the keyword) and `args[1] = arg1` (the value); `too_many` models the
`too_many_args(1, args, err, NULL)` guard.  Returns the parse result
(0 ok, -1 failure), the profiling word after the call, and the error
message handed to `memprintf`, if any. -/
def cfg_parse_prof_tasks (arg0 arg1 : String) (too_many : Bool) (prof : Nat) :
    Int × Nat × Option String :=
  if too_many then (-1, prof, none)
  else if arg1 = "on" then (0, set_tasks_bits prof HA_PROF_TASKS_ON, none)
  else if arg1 = "auto" then (0, set_tasks_bits prof HA_PROF_TASKS_AOFF, none)
  else if arg1 = "off" then (0, set_tasks_bits prof HA_PROF_TASKS_OFF, none)
  else (-1, prof,
    some ("\x27" ++ arg0 ++ "\x27 expects either \x27on\x27, \x27auto\x27, or \x27off\x27 but got \x27"
      ++ arg1 ++ "\x27."))

/-- `cli_parse_set_profiling` (lines 65-98) on `args[2]`, `args[3]`;
`is_admin` models `cli_has_level(appctx, ACCESS_LVL_ADMIN)`.  Returns the
return value (always 1), the profiling word after the call, and the error
text handed to `cli_err`, if any. -/
def cli_parse_set_profiling (is_admin : Bool) (arg2 arg3 : String) (prof : Nat) :
    Nat × Nat × Option String :=
  if ¬ is_admin then (1, prof, none)
  else if arg2 ≠ "tasks" then (1, prof, some "Expects \x27tasks\x27.\n")
  else if arg3 = "on" then (1, cli_transition ProfReq.on prof, none)
  else if arg3 = "auto" then (1, cli_transition ProfReq.auto prof, none)
  else if arg3 = "off" then (1, cli_transition ProfReq.off prof, none)
  else (1, prof, some "Expects \x27on\x27, \x27auto\x27, or \x27off\x27.\n")

/-- Per-thread activity record (`struct activity`, one per thread).  The two
decaying counters are external collaborators (`haproxy/freq_ctr.h`); each is
modelled by the trace of samples fed to it: `cpust_1s` records every sample
passed to `update_freq_ctr`, `cpust_15s` every (period, sample) pair passed
to `update_freq_ctr_period`. -/
structure activity_rec where
  cpust_total : Nat
  cpust_1s : List Nat
  cpust_15s : List (Nat × Nat)
deriving DecidableEq

/-- `2^64`, the modulus of the `uint64_t` accumulator `cpust_total`. -/
def U64 : Nat := 2 ^ 64

/-- `report_stolen_time(stolen)` (lines 36-41) acting on the calling
thread's record: add to the lifetime total (64-bit wraparound), feed the
sample to the 1-second counter and, with a 15000 ms period, to the
15-second counter. -/
def report_stolen_time (stolen : Nat) (a : activity_rec) : activity_rec :=
  { cpust_total := (a.cpust_total + stolen) % U64
    cpust_1s := a.cpust_1s ++ [stolen]
    cpust_15s := a.cpust_15s ++ [(15000, stolen)] }

/-- One slot of the 256-entry `sched_activity` table: the callable pointer
(`func`, 0 when unset), the call count and the two cumulative times. -/
structure sched_activity_entry where
  func : Nat
  calls : Nat
  cpu_time : Nat
  lat_time : Nat
deriving DecidableEq

/-- `cmp_sched_activity` (lines 100-111): -1 when the left entry has
strictly more calls, 1 when strictly fewer, 0 on ties. -/
def cmp_sched_activity (l r : sched_activity_entry) : Int :=
  if r.calls < l.calls then -1
  else if l.calls < r.calls then 1
  else 0

/-- The "sorts no later than" Boolean relation induced by the comparator:
`cmp_sched_activity l r ≤ 0`, i.e. `r.calls ≤ l.calls`. -/
def sched_le (l r : sched_activity_entry) : Bool :=
  decide (cmp_sched_activity l r ≤ 0)

/-- The snapshot-and-rank step of `cli_io_handler_show_profiling` (lines
136-137): copy the table and `qsort` it under `cmp_sched_activity`; the C
`qsort` is modelled by a merge sort over `sched_le`. -/
def snapshot_and_rank (tbl : List sched_activity_entry) : List sched_activity_entry :=
  List.mergeSort tbl sched_le

/-- The entries visited by the row loop of lines 146-166: ranked entries up
to the first one with `calls == 0`. -/
def ranked_rows (tbl : List sched_activity_entry) : List sched_activity_entry :=
  (snapshot_and_rank tbl).takeWhile (fun e => e.calls != 0)

/-- The mode label of the report header (`switch` of lines 129-134). -/
def mode_label (prof : Nat) : String :=
  if prof &&& HA_PROF_TASKS_MASK = HA_PROF_TASKS_AOFF then "auto-off"
  else if prof &&& HA_PROF_TASKS_MASK = HA_PROF_TASKS_AON then "auto-on"
  else if prof &&& HA_PROF_TASKS_MASK = HA_PROF_TASKS_ON then "on"
  else "off"

/-- The `printf` field width of lines 157-159: `max = 35 - name_len` in C
`int` arithmetic, clamped below at 1. -/
def field_width (name_len : Nat) : Int :=
  if (35 - (name_len : Int)) < 1 then 1 else 35 - (name_len : Int)

/-- The number of padding spaces `%*llu` emits before the digits of `calls`
when given field width `field_width name_len`. -/
def pad_count (name_len : Nat) (calls : Nat) : Nat :=
  (field_width name_len).toNat - (toString calls).length

/-- `chunk_appendf(&trash, "  %s%*llu", name, max, calls)` of line 160: two
leading spaces, the name untruncated, then the call count right-aligned in
the clamped field width. -/
def render_name_calls (name : String) (calls : Nat) : String :=
  "  " ++ name ++ String.mk (List.replicate (pad_count name.length calls) ' ')
    ++ toString calls

/-- One data row of the report (lines 146-166): resolved name (slot with a
null `func` renders as "other"), aligned call count, then the four time
figures, the two averages dividing by `calls`.  `resolve` models
`resolve_sym_name` and `fmt` models `print_time_short`, both external. -/
def render_row (resolve fmt : Nat → String) (e : sched_activity_entry) : String :=
  (render_name_calls (if e.func = 0 then "other" else resolve e.func) e.calls)
    ++ "   " ++ fmt e.cpu_time ++ "   " ++ fmt (e.cpu_time / e.calls)
    ++ "   " ++ fmt e.lat_time ++ "   " ++ fmt (e.lat_time / e.calls) ++ "\n"

/-- The report header (lines 139-144): mode line and table header. -/
def report_header (prof : Nat) : String :=
  "Per-task CPU profiling              : " ++ mode_label prof
    ++ "      # set profiling tasks \x7bon|auto|off\x7d\n"
    ++ "Tasks activity:\n"
    ++ "  function                      calls   cpu_tot   cpu_avg   lat_tot   lat_avg\n"

/-- The full formatted report: header followed by one row per ranked entry
with a nonzero call count. -/
def render_report (resolve fmt : Nat → String) (prof : Nat)
    (tbl : List sched_activity_entry) : String :=
  report_header prof ++ String.join ((ranked_rows tbl).map (render_row resolve fmt))

/-- The global state read by the report handler: the shared profiling word
(line 24) and the 256-slot `sched_activity` table (line 31). -/
structure GlobalState where
  profiling : Nat
  sched_activity : List sched_activity_entry
deriving DecidableEq

/-- Result of one invocation of the show-profiling handler: the global
state after the call, the C return value (1 done, 0 call again), whether
`si_rx_room_blk` was requested, and the text handed to the channel
(`none` when nothing was delivered). -/
structure IoResult where
  state : GlobalState
  ret : Nat
  rx_room_blocked : Bool
  delivered : Option String
deriving DecidableEq

/-- `cli_io_handler_show_profiling` (lines 116-174): `shut` models a
nonzero `si_ic(si)->flags & (CF_WRITE_ERROR|CF_SHUTW)`, `room` models
`ci_putchk` accepting the chunk (it returns -1 when the channel buffer
cannot take it, upon which the handler calls `si_rx_room_blk` and returns
0). -/
def cli_io_handler_show_profiling (resolve fmt : Nat → String) (shut room : Bool)
    (st : GlobalState) : IoResult :=
  if shut then ⟨st, 1, false, none⟩
  else
    let text := render_report resolve fmt st.profiling st.sched_activity
    if room then ⟨st, 1, false, some text⟩
    else ⟨st, 0, true, none⟩

/-- A 256-slot table with two populated entries, used as concrete input in
witnesses. -/
def tbl256 : List sched_activity_entry :=
  ⟨7, 5, 10, 20⟩ :: ⟨3, 9, 4, 2⟩ :: List.replicate 254 ⟨0, 0, 0, 0⟩

/-- A single-slot table with one populated entry, used as concrete input in
witnesses. -/
def tbl_one : List sched_activity_entry := [⟨1, 5, 10, 20⟩]

/-- A 35-character callable name, used as concrete input in witnesses. -/
def name35 : String := String.mk (List.replicate 35 'a')

/-- A 50-character callable name, used as concrete input in witnesses. -/
def name50 : String := String.mk (List.replicate 50 'a')

/-- A 20-character callable name, used as concrete input in witnesses. -/
def name20 : String := String.mk (List.replicate 20 'a')

/-! ### Helper lemmas -/

lemma set_tasks_bits_land_compl (w v : Nat) (hv : v &&& NOT_TASKS_MASK = 0) :
    set_tasks_bits w v &&& NOT_TASKS_MASK = w &&& NOT_TASKS_MASK := by
  apply Nat.eq_of_testBit_eq
  intro i
  have hvi := congrArg (fun n => n.testBit i) hv
  simp only [Nat.testBit_and, Nat.zero_testBit] at hvi
  simp only [set_tasks_bits, Nat.testBit_and, Nat.testBit_or]
  cases hnm : NOT_TASKS_MASK.testBit i <;> cases hvb : v.testBit i <;> simp_all

lemma set_tasks_bits_land_mask (w v : Nat) (hv : v &&& HA_PROF_TASKS_MASK = v) :
    set_tasks_bits w v &&& HA_PROF_TASKS_MASK = v := by
  apply Nat.eq_of_testBit_eq
  intro i
  have hvi := congrArg (fun n => n.testBit i) hv
  simp only [Nat.testBit_and] at hvi
  have h0 : NOT_TASKS_MASK &&& HA_PROF_TASKS_MASK = 0 := by decide
  have hdisj := congrArg (fun n => n.testBit i) h0
  simp only [Nat.testBit_and, Nat.zero_testBit] at hdisj
  simp only [set_tasks_bits, Nat.testBit_and, Nat.testBit_or]
  cases hm : HA_PROF_TASKS_MASK.testBit i <;>
    cases hnm : NOT_TASKS_MASK.testBit i <;> simp_all

lemma cas_loop_eq (f : Nat → Nat) (w : Nat) (interf : List (Nat → Nat)) :
    cas_loop f w interf = f (interf.foldl (fun x g => g x) w) := by
  induction interf generalizing w with
  | nil => rfl
  | cons g gs ih => simp [cas_loop, List.foldl, ih]

lemma cli_transition_land_compl (r : ProfReq) (w : Nat) :
    cli_transition r w &&& NOT_TASKS_MASK = w &&& NOT_TASKS_MASK := by
  cases r
  · exact set_tasks_bits_land_compl _ _ (by decide)
  · simp only [cli_transition]
    split
    · exact set_tasks_bits_land_compl _ _ (by decide)
    · exact set_tasks_bits_land_compl _ _ (by decide)
  · exact set_tasks_bits_land_compl _ _ (by decide)

lemma cfg_parse_prof_tasks_land_compl (arg0 arg1 : String) (tm : Bool) (prof : Nat) :
    (cfg_parse_prof_tasks arg0 arg1 tm prof).2.1 &&& NOT_TASKS_MASK
      = prof &&& NOT_TASKS_MASK := by
  unfold cfg_parse_prof_tasks
  split_ifs <;>
    simp only <;>
    first
      | rfl
      | exact set_tasks_bits_land_compl _ _ (by decide)

lemma cli_parse_set_profiling_land_compl (adm : Bool) (a2 a3 : String) (prof : Nat) :
    (cli_parse_set_profiling adm a2 a3 prof).2.1 &&& NOT_TASKS_MASK
      = prof &&& NOT_TASKS_MASK := by
  unfold cli_parse_set_profiling
  split_ifs <;>
    simp only <;>
    first
      | rfl
      | exact cli_transition_land_compl _ _

/-! ### Claim theorems -/

/-- C1 counterexample: the configuration parser's mode mutation is a plain
store, not a compare-and-swap.  With prior word 0 and a concurrent write
setting bit 3 (a bit outside `HA_PROF_TASKS_MASK`) landing between the
parser's read of `profiling` and its store, the stored word has lost that
bit, whereas a mutation losing no concurrent update would have kept the
non-mask bits of the concurrently updated word (value 8). -/
theorem c1_cfg_store_loses_concurrent_update :
    plain_rmw_store (fun w => set_tasks_bits w HA_PROF_TASKS_ON) (fun w => w ||| 8) 0
        &&& NOT_TASKS_MASK = 0 ∧
    ((fun w => w ||| 8) 0) &&& NOT_TASKS_MASK = 8 := by
  constructor <;> decide

/-- C1 (amended): every mode mutation - through the configuration parser or
the CLI command - replaces only the `HA_PROF_TASKS_MASK` bits relative to
the word value it is applied to, leaving the bits outside the mask
bit-for-bit unchanged; the CLI mutations are CAS retry loops whose
successful attempt installs the transition of the word as of that attempt,
so every interfering write is incorporated and no concurrent update to the
other bits is lost; the configuration parser's mutation, however, is a
plain (non-CAS) read-modify-write store. -/
theorem c1_mode_mutations_preserve_unrelated_bits :
    (∀ arg0 arg1 tm prof,
      (cfg_parse_prof_tasks arg0 arg1 tm prof).2.1 &&& NOT_TASKS_MASK
        = prof &&& NOT_TASKS_MASK) ∧
    (∀ adm a2 a3 prof,
      (cli_parse_set_profiling adm a2 a3 prof).2.1 &&& NOT_TASKS_MASK
        = prof &&& NOT_TASKS_MASK) ∧
    (∀ r w interf,
      cas_loop (cli_transition r) w interf
        = cli_transition r (interf.foldl (fun x g => g x) w)) ∧
    (∀ v, v ∈ [HA_PROF_TASKS_ON, HA_PROF_TASKS_AOFF,
               HA_PROF_TASKS_OFF, HA_PROF_TASKS_AON] →
      ∀ w, set_tasks_bits w v &&& HA_PROF_TASKS_MASK = v ∧
           set_tasks_bits w v &&& NOT_TASKS_MASK = w &&& NOT_TASKS_MASK) := by
  refine ⟨cfg_parse_prof_tasks_land_compl, cli_parse_set_profiling_land_compl,
    fun r w interf => cas_loop_eq _ _ _, ?_⟩
  intro v hv w
  simp only [List.mem_cons, List.mem_singleton] at hv
  rcases hv with rfl | rfl | rfl | (rfl | h)
  · exact ⟨set_tasks_bits_land_mask _ _ (by decide),
      set_tasks_bits_land_compl _ _ (by decide)⟩
  · exact ⟨set_tasks_bits_land_mask _ _ (by decide),
      set_tasks_bits_land_compl _ _ (by decide)⟩
  · exact ⟨set_tasks_bits_land_mask _ _ (by decide),
      set_tasks_bits_land_compl _ _ (by decide)⟩
  · exact ⟨set_tasks_bits_land_mask _ _ (by decide),
      set_tasks_bits_land_compl _ _ (by decide)⟩
  · cases h

/-- C1 witness: the fourth conjunct applied at mode value
`HA_PROF_TASKS_ON` and prior word 12345. -/
theorem c1_mode_mutations_preserve_unrelated_bits_witness :
    set_tasks_bits 12345 HA_PROF_TASKS_ON &&& HA_PROF_TASKS_MASK = HA_PROF_TASKS_ON ∧
    set_tasks_bits 12345 HA_PROF_TASKS_ON &&& NOT_TASKS_MASK = 12345 &&& NOT_TASKS_MASK :=
  c1_mode_mutations_preserve_unrelated_bits.2.2.2 HA_PROF_TASKS_ON (by decide) 12345

/-- C2: the `auto` transition of `cli_parse_set_profiling` is idempotent
relative to tier: for every prior word, when the mode bits are `AutoOn` it
leaves them `AutoOn`; when `AutoOff`, `AutoOff`; and when they are `On` or
`Off` the result is `AutoOff`, since neither ranks at or above `AutoOn`. -/
theorem c2_auto_transition_idempotent_tier (w : Nat) :
    (w &&& HA_PROF_TASKS_MASK = HA_PROF_TASKS_AON →
      cli_transition ProfReq.auto w &&& HA_PROF_TASKS_MASK = HA_PROF_TASKS_AON) ∧
    (w &&& HA_PROF_TASKS_MASK = HA_PROF_TASKS_AOFF →
      cli_transition ProfReq.auto w &&& HA_PROF_TASKS_MASK = HA_PROF_TASKS_AOFF) ∧
    (w &&& HA_PROF_TASKS_MASK = HA_PROF_TASKS_ON →
      cli_transition ProfReq.auto w &&& HA_PROF_TASKS_MASK = HA_PROF_TASKS_AOFF) ∧
    (w &&& HA_PROF_TASKS_MASK = HA_PROF_TASKS_OFF →
      cli_transition ProfReq.auto w &&& HA_PROF_TASKS_MASK = HA_PROF_TASKS_AOFF) := by
  refine ⟨fun h => ?_, fun h => ?_, fun h => ?_, fun h => ?_⟩ <;>
    simp only [cli_transition, h] <;>
    norm_num [HA_PROF_TASKS_AON, HA_PROF_TASKS_AOFF, HA_PROF_TASKS_ON,
      HA_PROF_TASKS_OFF] <;>
    exact set_tasks_bits_land_mask _ _ (by decide)

/-- C2 witness: the four cases applied at the concrete words 4, 2, 1, 0,
whose mode bits are `AutoOn`, `AutoOff`, `On`, `Off` respectively. -/
theorem c2_auto_transition_idempotent_tier_witness :
    cli_transition ProfReq.auto 4 &&& HA_PROF_TASKS_MASK = HA_PROF_TASKS_AON ∧
    cli_transition ProfReq.auto 2 &&& HA_PROF_TASKS_MASK = HA_PROF_TASKS_AOFF ∧
    cli_transition ProfReq.auto 1 &&& HA_PROF_TASKS_MASK = HA_PROF_TASKS_AOFF ∧
    cli_transition ProfReq.auto 0 &&& HA_PROF_TASKS_MASK = HA_PROF_TASKS_AOFF :=
  ⟨(c2_auto_transition_idempotent_tier 4).1 (by decide),
   (c2_auto_transition_idempotent_tier 2).2.1 (by decide),
   (c2_auto_transition_idempotent_tier 1).2.2.1 (by decide),
   (c2_auto_transition_idempotent_tier 0).2.2.2 (by decide)⟩

/-- C3: for every finite sequence of `report_stolen_time` calls on one
thread's record, the final `cpust_total` is the initial value plus the
exact sum of all recorded amounts (in the 64-bit arithmetic of the
`uint64_t` accumulator), and each call also fed the same amount into the
1-second decaying counter and, with a 15000 ms window, into the 15-second
decaying counter. -/
theorem c3_stolen_time_exact_sum (a : activity_rec) (l : List Nat)
    (ha : a.cpust_total < U64) :
    (l.foldl (fun s x => report_stolen_time x s) a).cpust_total
        = (a.cpust_total + l.sum) % U64 ∧
    (l.foldl (fun s x => report_stolen_time x s) a).cpust_1s
        = a.cpust_1s ++ l ∧
    (l.foldl (fun s x => report_stolen_time x s) a).cpust_15s
        = a.cpust_15s ++ l.map (fun x => (15000, x)) := by
  induction l generalizing a with
  | nil =>
      refine ⟨?_, by simp, by simp⟩
      simp [Nat.mod_eq_of_lt ha]
  | cons x xs ih =>
      have hlt : (report_stolen_time x a).cpust_total < U64 := by
        simp only [report_stolen_time]
        exact Nat.mod_lt _ (by norm_num [U64])
      obtain ⟨h1, h2, h3⟩ := ih (report_stolen_time x a) hlt
      refine ⟨?_, ?_, ?_⟩
      · simp only [List.foldl_cons] at h1 ⊢
        rw [h1]
        simp only [report_stolen_time, List.sum_cons]
        rw [Nat.mod_add_mod]
        ring_nf
      · simp only [List.foldl_cons] at h2 ⊢
        rw [h2]
        simp [report_stolen_time, List.append_assoc]
      · simp only [List.foldl_cons] at h3 ⊢
        rw [h3]
        simp [report_stolen_time, List.append_assoc]

/-- C3 witness: applied to the record with total 5 and empty counter
traces, recording the amounts 3 and 4. -/
theorem c3_stolen_time_exact_sum_witness :
    ([3, 4].foldl (fun s x => report_stolen_time x s)
        (⟨5, [], []⟩ : activity_rec)).cpust_total = (5 + [3, 4].sum) % U64 ∧
    ([3, 4].foldl (fun s x => report_stolen_time x s)
        (⟨5, [], []⟩ : activity_rec)).cpust_1s = [] ++ [3, 4] ∧
    ([3, 4].foldl (fun s x => report_stolen_time x s)
        (⟨5, [], []⟩ : activity_rec)).cpust_15s
      = [] ++ [3, 4].map (fun x => (15000, x)) :=
  c3_stolen_time_exact_sum ⟨5, [], []⟩ [3, 4] (by norm_num [U64])

lemma sched_le_iff (l r : sched_activity_entry) :
    sched_le l r = true ↔ r.calls ≤ l.calls := by
  simp only [sched_le, cmp_sched_activity, decide_eq_true_eq]
  split_ifs with h1 h2 <;> constructor <;> intro h <;> omega

lemma sched_le_trans (a b c : sched_activity_entry) :
    sched_le a b → sched_le b c → sched_le a c := by
  intro h1 h2
  rw [sched_le_iff] at h1 h2 ⊢
  exact Nat.le_trans h2 h1

lemma sched_le_total (a b : sched_activity_entry) :
    sched_le a b || sched_le b a := by
  simp only [Bool.or_eq_true, sched_le_iff]
  exact Nat.le_total b.calls a.calls

lemma mem_takeWhile_pred {α : Type} (p : α → Bool) :
    ∀ (l : List α) (a : α), a ∈ l.takeWhile p → p a = true := by
  intro l
  induction l with
  | nil => intro a h; cases h
  | cons x xs ih =>
      intro a h
      by_cases hx : p x
      · rw [List.takeWhile_cons_of_pos hx] at h
        rcases List.mem_cons.mp h with rfl | h
        · exact hx
        · exact ih a h
      · rw [List.takeWhile_cons_of_neg hx] at h
        cases h

/-- C4: for a fixed table of 256 slots, `snapshot_and_rank` yields a
permutation of all 256 entries, of length 256, ordered by non-increasing
`calls`; running it twice on the same table yields the identical
ordering. -/
theorem c4_snapshot_and_rank_sorted (tbl : List sched_activity_entry)
    (h : tbl.length = 256) :
    (snapshot_and_rank tbl).Perm tbl ∧
    (snapshot_and_rank tbl).length = 256 ∧
    (snapshot_and_rank tbl).Pairwise (fun l r => r.calls ≤ l.calls) ∧
    snapshot_and_rank tbl = snapshot_and_rank tbl := by
  refine ⟨List.mergeSort_perm tbl sched_le, ?_, ?_, rfl⟩
  · simp [snapshot_and_rank, h]
  · have hs := List.sorted_mergeSort sched_le_trans sched_le_total tbl
    exact hs.imp fun {a b} hab => (sched_le_iff a b).mp hab

/-- C4 witness: applied to the concrete 256-slot table `tbl256`. -/
theorem c4_snapshot_and_rank_sorted_witness :
    (snapshot_and_rank tbl256).Perm tbl256 ∧
    (snapshot_and_rank tbl256).length = 256 ∧
    (snapshot_and_rank tbl256).Pairwise (fun l r => r.calls ≤ l.calls) ∧
    snapshot_and_rank tbl256 = snapshot_and_rank tbl256 :=
  c4_snapshot_and_rank_sorted tbl256
    (by simp only [tbl256, List.length_cons, List.length_replicate])

/-- C5: every row that reaches the averaging step of the report renderer
has a positive call count - the row loop stops at the first zero-call entry
of the ranked snapshot - so the divisors of `cpu_time / calls` and
`lat_time / calls` in `render_row` are never zero. -/
theorem c5_rendered_rows_calls_positive (tbl : List sched_activity_entry)
    (e : sched_activity_entry) (he : e ∈ ranked_rows tbl) : 0 < e.calls := by
  simp only [ranked_rows] at he
  have hp := mem_takeWhile_pred (fun x => x.calls != 0) (snapshot_and_rank tbl) e he
  simp only [bne_iff_ne, ne_eq] at hp
  exact Nat.pos_of_ne_zero hp

/-- C5 witness: applied to the single-slot table `tbl_one` and its unique
entry, which has 5 calls. -/
theorem c5_rendered_rows_calls_positive_witness :
    0 < (⟨1, 5, 10, 20⟩ : sched_activity_entry).calls :=
  c5_rendered_rows_calls_positive tbl_one ⟨1, 5, 10, 20⟩
    (by simp [ranked_rows, snapshot_and_rank, tbl_one])

/-- C6: when the output channel is in an error or shutdown state the report
handler returns done (1) immediately, delivering nothing and requesting no
room notification; when the channel buffer cannot take the chunk it calls
`si_rx_room_blk`, returns not-done (0) and delivers nothing, and the next
invocation recomputes the whole report (snapshot, sort, render) from the
current state; on successful hand-off it delivers the full report and
returns done (1). -/
theorem c6_channel_error_and_backpressure (resolve fmt : Nat → String)
    (st : GlobalState) :
    (∀ room, cli_io_handler_show_profiling resolve fmt true room st
        = ⟨st, 1, false, none⟩) ∧
    (cli_io_handler_show_profiling resolve fmt false false st
        = ⟨st, 0, true, none⟩) ∧
    (cli_io_handler_show_profiling resolve fmt false true st
        = ⟨st, 1, false,
            some (render_report resolve fmt st.profiling st.sched_activity)⟩) :=
  ⟨fun _ => rfl, rfl, rfl⟩

/-- C7: the report handler never mutates the scheduling activity table or
the profiling word: whatever the channel condition and outcome (including
the not-done backpressure return), the global state after the call equals
the state before it; the sort acts on a private copy only. -/
theorem c7_handler_never_mutates (resolve fmt : Nat → String)
    (shut room : Bool) (st : GlobalState) :
    (cli_io_handler_show_profiling resolve fmt shut room st).state.sched_activity
        = st.sched_activity ∧
    (cli_io_handler_show_profiling resolve fmt shut room st).state.profiling
        = st.profiling := by
  cases shut <;> cases room <;> exact ⟨rfl, rfl⟩

/-- C8 counterexample: with a 35-character callable name, the call count is
rendered with zero padding spaces before it (the clamped quantity is the
printf field width of the count, minimum 1 column, not a padding amount),
so the rendered text is the name immediately followed by the digits; the
same holds for a 50-character name, where the claim expects a single
space. -/
theorem c8_padding_counterexample :
    pad_count name35.length 7 = 0 ∧
    render_name_calls name35 7 = "  " ++ name35 ++ "7" ∧
    pad_count name50.length 7 = 0 ∧
    render_name_calls name50 7 = "  " ++ name50 ++ "7" := by
  refine ⟨by decide, by decide, by decide, by decide⟩

/-- C8 (amended): a rendered row is two spaces, the untruncated name,
`pad_count` padding spaces, then the decimal call count; when the name and
the count together reach the 35-column budget (in particular for names of
35 or 50 characters) the padding is zero and the count immediately follows
the name, because the clamp keeps a minimum printf field width of 1 for the
count itself, not a minimum padding; when name plus count fit within 34
columns the count is right-aligned with at least one space so that name,
padding and count together fill exactly 35 columns. -/
theorem c8_call_count_alignment (name : String) (calls : Nat) :
    (render_name_calls name calls
      = "  " ++ name
        ++ String.mk (List.replicate (pad_count name.length calls) ' ')
        ++ toString calls) ∧
    (1 ≤ (toString calls).length → 35 ≤ name.length + (toString calls).length →
        pad_count name.length calls = 0) ∧
    (name.length + (toString calls).length ≤ 34 →
        pad_count name.length calls
            = 35 - name.length - (toString calls).length ∧
        1 ≤ pad_count name.length calls ∧
        name.length + pad_count name.length calls + (toString calls).length
            = 35) := by
  refine ⟨rfl, ?_, ?_⟩ <;> simp only [pad_count, field_width]
  · intro h1 h2
    split_ifs <;> omega
  · intro h
    split_ifs <;> omega

/-- C8 witness: the amended theorem applied at the 50-character name with
count 123 (no padding) and at the 20-character name with count 123
(right-aligned with 12 padding spaces inside the 35-column budget). -/
theorem c8_call_count_alignment_witness :
    pad_count name50.length 123 = 0 ∧
    (pad_count name20.length 123 = 35 - name20.length - (toString 123).length ∧
     1 ≤ pad_count name20.length 123 ∧
     name20.length + pad_count name20.length 123 + (toString 123).length = 35) :=
  ⟨(c8_call_count_alignment name50 123).2.1 (by decide) (by decide),
   (c8_call_count_alignment name20 123).2.2 (by decide)⟩

/-- C9: invalid input is rejected without mutating any state: the
configuration parser accepts exactly the tokens `on`, `auto`, `off`,
rejects any other token with the failure signal -1 and the descriptive
error naming the keyword and the offending value, leaving the profiling
word unchanged; the `set profiling` command leaves the word unchanged on
insufficient privilege, and reports a usage error while leaving the word
unchanged for an unrecognized subcommand or value. -/
theorem c9_invalid_input_rejected_without_mutation :
    (∀ arg0 arg1 prof, arg1 ≠ "on" → arg1 ≠ "auto" → arg1 ≠ "off" →
      cfg_parse_prof_tasks arg0 arg1 false prof
        = (-1, prof,
            some ("\x27" ++ arg0
              ++ "\x27 expects either \x27on\x27, \x27auto\x27, or \x27off\x27 but got \x27"
              ++ arg1 ++ "\x27."))) ∧
    (∀ arg0 prof,
      (cfg_parse_prof_tasks arg0 "on" false prof).1 = 0 ∧
      (cfg_parse_prof_tasks arg0 "auto" false prof).1 = 0 ∧
      (cfg_parse_prof_tasks arg0 "off" false prof).1 = 0) ∧
    (∀ a2 a3 prof, (cli_parse_set_profiling false a2 a3 prof).2.1 = prof) ∧
    (∀ a2 a3 prof, a2 ≠ "tasks" →
      cli_parse_set_profiling true a2 a3 prof
        = (1, prof, some "Expects \x27tasks\x27.\n")) ∧
    (∀ a3 prof, a3 ≠ "on" → a3 ≠ "auto" → a3 ≠ "off" →
      cli_parse_set_profiling true "tasks" a3 prof
        = (1, prof, some "Expects \x27on\x27, \x27auto\x27, or \x27off\x27.\n")) := by
  refine ⟨?_, ?_, ?_, ?_, ?_⟩
  · intro arg0 arg1 prof h1 h2 h3
    simp [cfg_parse_prof_tasks, h1, h2, h3]
  · intro arg0 prof
    refine ⟨by simp [cfg_parse_prof_tasks], by simp [cfg_parse_prof_tasks],
      by simp [cfg_parse_prof_tasks]⟩
  · intro a2 a3 prof
    simp [cli_parse_set_profiling]
  · intro a2 a3 prof h
    simp [cli_parse_set_profiling, h]
  · intro a3 prof h1 h2 h3
    simp [cli_parse_set_profiling, h1, h2, h3]

/-- C9 witness: the rejecting cases applied at the keyword
`profiling.tasks`, the invalid value `bogus`, the misspelt subcommand
`task`, the invalid CLI value `maybe`, and prior word 6. -/
theorem c9_invalid_input_rejected_without_mutation_witness :
    cfg_parse_prof_tasks "profiling.tasks" "bogus" false 6
      = (-1, 6,
          some ("\x27" ++ "profiling.tasks"
            ++ "\x27 expects either \x27on\x27, \x27auto\x27, or \x27off\x27 but got \x27"
            ++ "bogus" ++ "\x27.")) ∧
    cli_parse_set_profiling true "task" "on" 6
      = (1, 6, some "Expects \x27tasks\x27.\n") ∧
    cli_parse_set_profiling true "tasks" "maybe" 6
      = (1, 6, some "Expects \x27on\x27, \x27auto\x27, or \x27off\x27.\n") :=
  ⟨c9_invalid_input_rejected_without_mutation.1 "profiling.tasks" "bogus" 6
      (by decide) (by decide) (by decide),
   c9_invalid_input_rejected_without_mutation.2.2.2.1 "task" "on" 6 (by decide),
   c9_invalid_input_rejected_without_mutation.2.2.2.2 "maybe" 6
      (by decide) (by decide) (by decide)⟩

/-- C10: the load-time configuration value `auto` unconditionally sets the
mode bits to `AutoOff` for every prior word; unlike the runtime command it
performs no tier-preservation check - at a word whose mode bits are
`AutoOn` the configuration parser yields `AutoOff` while the CLI `auto`
transition yields `AutoOn` - and the process-wide initial mode is
`AutoOff`. -/
theorem c10_cfg_auto_unconditionally_aoff :
    (∀ arg0 prof,
      (cfg_parse_prof_tasks arg0 "auto" false prof).2.1 &&& HA_PROF_TASKS_MASK
        = HA_PROF_TASKS_AOFF) ∧
    ((cfg_parse_prof_tasks "profiling.tasks" "auto" false HA_PROF_TASKS_AON).2.1
        &&& HA_PROF_TASKS_MASK = HA_PROF_TASKS_AOFF ∧
      cli_transition ProfReq.auto HA_PROF_TASKS_AON &&& HA_PROF_TASKS_MASK
        = HA_PROF_TASKS_AON) ∧
    profiling_init = HA_PROF_TASKS_AOFF := by
  refine ⟨?_, ⟨by decide, by decide⟩, rfl⟩
  intro arg0 prof
  have h : cfg_parse_prof_tasks arg0 "auto" false prof
      = (0, set_tasks_bits prof HA_PROF_TASKS_AOFF, none) := by
    simp [cfg_parse_prof_tasks]
  rw [h]
  exact set_tasks_bits_land_mask _ _ (by decide)
